import Mathlib

/-!
Shallow embedding of the babli-bua wedding-assistant server (src/server.js)
and proofs of the specification's claims about it.

JavaScript values that may be `undefined`/`null` are modelled as `Option String`;
JavaScript string truthiness (`""`, `null`, `undefined` are falsy) is modelled
by the `jsTruthyStr`/`jsOr` helpers below.
-/

namespace BabliBua

/-- Model of a JS `Option String` truthiness test: `none` and `some ""` are falsy. -/
def jsTruthyStr : Option String → Option String
  | none => none
  | some s => if s = "" then none else some s

/-- Model of the JS `a || b` fallback on an optional string `a`:
`undefined`, `null` and `""` fall through to `b`. -/
def jsOr (a : Option String) (b : String) : String :=
  match jsTruthyStr a with
  | some s => s
  | none => b

/-- JS template-literal rendering of a possibly-undefined string:
`undefined` prints as the text "undefined". -/
def showJs : Option String → String
  | some s => s
  | none => "undefined"

/-- JS `s.endsWith(suffix)`: `suffix` is a trailing substring of `s`. -/
def jsEndsWith (s suffix : String) : Bool :=
  suffix.data.isSuffixOf s.data

/-- JS `s.toLowerCase()` (character-wise lowering). -/
def jsToLower (s : String) : String :=
  String.mk (s.data.map Char.toLower)

/-- JS `s.trim()`: strip leading and trailing whitespace. -/
def jsTrim (s : String) : String :=
  String.mk (((s.data.dropWhile Char.isWhitespace).reverse.dropWhile Char.isWhitespace).reverse)

/-- `normalizePhone` (src/server.js lines 203-206):
`if (!raw) return ""; return raw.replace(/\D/g, "")` — a falsy input
(`undefined`/`null`/`""`) gives `""`, otherwise all non-digit characters
are stripped. -/
def normalizePhone (raw : Option String) : String :=
  match jsTruthyStr raw with
  | none => ""
  | some s => String.mk (s.data.filter Char.isDigit)

/-! ### The phone regex `/\+?\d{10,13}/` (src/server.js line 221)

`userMessage.match(phoneRegex)` returns the leftmost match: at each start
position the regex engine tries an optional `'+'` followed by a greedy run of
10 to 13 digits.  At a `'+'` the fallback alternative (empty `\+?` followed by
digits) can never succeed because `'+'` is not a digit, so a position matches
iff either it starts a digit run of length ≥ 10, or it is a `'+'` immediately
followed by such a run. -/

/-- Attempt to match `/\+?\d{10,13}/` anchored at the position whose first
character is `c` and remaining characters are `rest`. -/
def matchPhoneAt (c : Char) (rest : List Char) : Option (List Char) :=
  if c = '+' then
    let ds := rest.takeWhile Char.isDigit
    if 10 ≤ ds.length then some ('+' :: ds.take 13) else none
  else
    let ds := (c :: rest).takeWhile Char.isDigit
    if 10 ≤ ds.length then some (ds.take 13) else none

/-- Leftmost match of `/\+?\d{10,13}/` in a character list (the value of
`userMessage.match(phoneRegex)?.[0]`). -/
def findPhone : List Char → Option String
  | [] => none
  | c :: rest =>
    match matchPhoneAt c rest with
    | some m => some (String.mk m)
    | none => findPhone rest

/-- `true` iff some position of the list starts a run of at least 10
consecutive digits, i.e. iff the text contains a substring of 10 consecutive
digits. -/
def hasPhoneCandidate : List Char → Bool
  | [] => false
  | c :: rest => decide (10 ≤ ((c :: rest).takeWhile Char.isDigit).length) || hasPhoneCandidate rest

/-! ### Guest roster and booking resolution (src/server.js lines 210-267) -/

/-- A guest row as assembled in `buildEventDataFromSheets`
(src/server.js lines 102-108); every field is a CSV column that may be
absent. -/
structure GuestBooking where
  phone : Option String
  name : Option String
  hotelName : Option String
  roomNo : Option String
  notes : Option String
deriving DecidableEq, Repr

/-- The guest-find predicate (src/server.js lines 229-235):
`normalizedGuestPhone && normalizedGuestPhone.endsWith(normalizedQuery)`. -/
def guestPhoneMatches (normalizedQuery : String) (g : GuestBooking) : Bool :=
  let normalizedGuestPhone := normalizePhone g.phone
  normalizedGuestPhone ≠ "" && jsEndsWith normalizedGuestPhone normalizedQuery

/-- Outcome of the booking lookup in the chat endpoint. -/
inductive Resolution where
  | noPhoneMentioned
  | notFound
  | found (g : GuestBooking)
deriving DecidableEq, Repr

/-- The booking resolution of the chat endpoint (src/server.js lines 221-247):
extract the first `/\+?\d{10,13}/` match from the message, normalize it, and
search the roster for the first guest whose non-empty normalized phone ends
with the normalized query.  The `guests.length > 0` guard of line 225 is kept
verbatim. -/
def resolveBooking (message : String) (guests : List GuestBooking) : Resolution :=
  match findPhone message.data with
  | none => .noPhoneMentioned
  | some rawPhone =>
    let normalizedQuery := normalizePhone (some rawPhone)
    match (if 0 < guests.length then guests.find? (guestPhoneMatches normalizedQuery) else none) with
    | some g => .found g
    | none => .notFound

/-! ### Event data model (src/server.js lines 43-151) -/

/-- An event row (src/server.js lines 77-86). -/
structure EventRec where
  key : Option String
  name : Option String
  date : Option String
  time : Option String
  venue : Option String
  address : Option String
  mapLink : Option String
  dressCode : Option String
deriving DecidableEq, Repr

/-- A hotel row (src/server.js lines 89-99). -/
structure Hotel where
  name : Option String
  type : Option String
  address : Option String
  mapLink : Option String
  priceRange : Option String
  bookingLink : Option String
  contactPerson : Option String
  contactPhone : Option String
  notes : Option String
deriving DecidableEq, Repr

/-- The optional generic stay block (src/server.js lines 119-129); built only
when `meta.hotelName` is truthy, so its hotel name is a plain string. -/
structure Stay where
  hotelName : String
  address : Option String
  mapLink : Option String
  checkIn : Option String
  checkOut : Option String
  contactPerson : Option String
  contactPhone : Option String
deriving DecidableEq, Repr

/-- The optional emergency contact (src/server.js lines 131-136). -/
structure EmergencyContact where
  name : String
  phone : Option String
deriving DecidableEq, Repr

/-- The cached snapshot assembled by `buildEventDataFromSheets`
(src/server.js lines 110-137). -/
structure EventData where
  coupleNames : String
  weddingName : String
  city : String
  events : List EventRec
  hotels : List Hotel
  guests : List GuestBooking
  stay : Option Stay
  emergencyContact : Option EmergencyContact
deriving DecidableEq, Repr

/-- A CSV record as produced by `csv-parse` with the `columns` option: a
field-keyed lookup, `none` for a column absent from the sheet. -/
def Row : Type := String → Option String

/-- The environment variables read by `buildEventDataFromSheets`
(src/server.js lines 44-47). -/
structure Env where
  META_CSV_URL : Option String
  EVENTS_CSV_URL : Option String
  HOTELS_CSV_URL : Option String
  GUESTS_CSV_URL : Option String

/-- The `meta` key/value map of src/server.js lines 69-74, read back at key
`key`: the value of the last row whose truthy `field` column equals `key`,
with `row.value ?? ""` applied at store time. -/
def metaGet (metaRows : List Row) (key : String) : Option String :=
  ((metaRows.filter (fun r => jsTruthyStr (r "field") == some key)).getLast?).map
    (fun r => (r "value").getD "")

/-- `buildEventDataFromSheets` (src/server.js lines 43-140).  The remote
`loadCsv` fetch is the explicit collaborator `load`; a rejected fetch is an
`Except.error`.  The configuration check `if (!metaUrl || !eventsUrl) throw`
happens before any fetch. -/
def buildEventDataFromSheets (env : Env) (load : String → Except String (List Row)) :
    Except String EventData :=
  match jsTruthyStr env.META_CSV_URL, jsTruthyStr env.EVENTS_CSV_URL with
  | some metaUrl, some eventsUrl => do
    let metaRows ← load metaUrl
    let eventRows ← load eventsUrl
    let hotelsRows ← (match jsTruthyStr env.HOTELS_CSV_URL with
      | some hotelsUrl => load hotelsUrl
      | none => pure [])
    let guestsRows ← (match jsTruthyStr env.GUESTS_CSV_URL with
      | some guestsUrl => load guestsUrl
      | none => pure [])
    let events := eventRows.map (fun r =>
      EventRec.mk (r "key") (r "name") (r "date") (r "time") (r "venue")
        (r "address") (r "mapLink") (r "dressCode"))
    let hotels := hotelsRows.map (fun h =>
      Hotel.mk (h "name") (h "type") (h "address") (h "mapLink") (h "priceRange")
        (h "bookingLink") (h "contactPerson") (h "contactPhone") (h "notes"))
    let guests := guestsRows.map (fun g =>
      GuestBooking.mk (g "phone") (g "name") (g "hotelName") (g "roomNo") (g "notes"))
    pure (EventData.mk
      (jsOr (metaGet metaRows "coupleNames") "")
      (jsOr (metaGet metaRows "weddingName") "")
      (jsOr (metaGet metaRows "city") "")
      events hotels guests
      (match jsTruthyStr (metaGet metaRows "hotelName") with
       | some hn => some (Stay.mk hn
           (metaGet metaRows "hotelAddress") (metaGet metaRows "hotelMapLink")
           (metaGet metaRows "hotelCheckIn") (metaGet metaRows "hotelCheckOut")
           (metaGet metaRows "hotelContactPerson") (metaGet metaRows "hotelContactPhone"))
       | none => none)
      (match jsTruthyStr (metaGet metaRows "emergencyName") with
       | some en => some (EmergencyContact.mk en (metaGet metaRows "emergencyPhone"))
       | none => none))
  | _, _ => .error "META_CSV_URL or EVENTS_CSV_URL missing in .env"

/-! ### Event data cache (src/server.js lines 39-41 and 142-151) -/

/-- The module-level cache globals `cachedEventData` / `lastLoadedMs`,
made explicit state. -/
structure CacheState where
  cachedEventData : Option EventData
  lastLoadedMs : Int
deriving DecidableEq, Repr

/-- `CACHE_TTL_MS = 5 * 60 * 1000` (src/server.js line 41). -/
def CACHE_TTL_MS : Int := 5 * 60 * 1000

/-- `getEventData` (src/server.js lines 142-151) with `Date.now()` passed in
as `now`: return the cache if present and younger than the TTL, otherwise
rebuild and replace the cache.  On a rebuild failure the thrown error
propagates and the cache globals are left untouched. -/
def getEventData (env : Env) (load : String → Except String (List Row))
    (st : CacheState) (now : Int) : Except String (EventData × CacheState) :=
  match st.cachedEventData with
  | some d =>
    if now - st.lastLoadedMs < CACHE_TTL_MS then .ok (d, st)
    else
      match buildEventDataFromSheets env load with
      | .ok data => .ok (data, CacheState.mk (some data) now)
      | .error e => .error e
  | none =>
    match buildEventDataFromSheets env load with
    | .ok data => .ok (data, CacheState.mk (some data) now)
    | .error e => .error e

/-! ### Context string and prompts for the AI path (src/server.js lines 155-199, 271-309) -/

/-- `buildContextFromEventData` (src/server.js lines 155-199). -/
def buildContextFromEventData (E : EventData) : String :=
  let eventLines := E.events.enum.map (fun p =>
    toString (p.1 + 1) ++ ". " ++ showJs p.2.name ++ " (" ++ showJs p.2.key ++ ") on " ++
      showJs p.2.date ++ " at " ++ showJs p.2.time ++ ", Venue: " ++ showJs p.2.venue ++
      ", Address: " ++ showJs p.2.address ++ ", Map: " ++ showJs p.2.mapLink ++
      ", Dress code: " ++ showJs p.2.dressCode)
  let stayLines := match E.stay with
    | some s =>
      ["STAY: Hotel " ++ s.hotelName ++ ", " ++ showJs s.address ++ ", Map: " ++
        showJs s.mapLink ++ ", Check-in: " ++ showJs s.checkIn ++ ", Check-out: " ++
        showJs s.checkOut ++ ", Contact: " ++ showJs s.contactPerson ++ " (" ++
        showJs s.contactPhone ++ ")."]
    | none => []
  let emergencyLines := match E.emergencyContact with
    | some c => ["EMERGENCY CONTACT: " ++ c.name ++ ", Phone: " ++ showJs c.phone ++ "."]
    | none => []
  let hotelLines :=
    if 0 < E.hotels.length then
      "HOTEL OPTIONS:" :: E.hotels.enum.map (fun p =>
        toString (p.1 + 1) ++ ". " ++ showJs p.2.name ++ " (" ++ jsOr p.2.type "Hotel" ++
          ") - Address: " ++ showJs p.2.address ++ ". Map: " ++ showJs p.2.mapLink ++
          ". Price: " ++ showJs p.2.priceRange ++ ". Booking: " ++ showJs p.2.bookingLink ++
          ". Contact: " ++ showJs p.2.contactPerson ++ " (" ++ showJs p.2.contactPhone ++
          "). Notes: " ++ showJs p.2.notes)
    else []
  String.intercalate "\n"
    (["Wedding: " ++ E.weddingName ++ " in " ++ E.city,
      "Couple: " ++ E.coupleNames,
      "",
      "EVENT SCHEDULE:"] ++ eventLines ++ [""] ++ stayLines ++ emergencyLines ++ [""] ++
      hotelLines)

/-- The system prompt of src/server.js lines 271-299, after `.trim()`. -/
def systemPromptFor (E : EventData) : String :=
  "You are \"Babli\", a friendly AI wedding assistant for the " ++ E.weddingName ++ ".\n" ++
  "You answer only questions about this wedding:\n\n" ++
  "- Function dates, timings, venues, dress code\n" ++
  "- Hotel stay details and general hotel options\n" ++
  "- How to reach venues and hotels (use map links)\n" ++
  "- Emergency/main contact person\n\n" ++
  "Formatting rules (very important):\n" ++
  "- Reply in a clean, multi-line format.\n" ++
  "- Use simple HTML <strong> only for labels like:\n" ++
  "  <strong>Mehendi Ceremony:</strong>\n" ++
  "  <strong>Date:</strong> 10 February 2025\n" ++
  "  <strong>Time:</strong> 11:00 AM\n" ++
  "  <strong>Venue:</strong> Green Leaf Lawn, Jaipur\n" ++
  "  <strong>Dress code:</strong> Green / Yellow Indian ethnic\n" ++
  "  <strong>Map:</strong> https://maps.google.com/...\n" ++
  "- For hotel info, you can respond like:\n" ++
  "  <strong>Hotel:</strong> Hotel Sunshine (Main Hotel)\n" ++
  "  <strong>Address:</strong> MI Road, Jaipur\n" ++
  "  <strong>Price range:</strong> ₹3000–₹4500 per night\n" ++
  "  <strong>Booking link:</strong> https://bookinglink.com/...\n" ++
  "- Do NOT use markdown (**bold**, [links](url)) or other HTML tags.\n" ++
  "- No bullet symbols like •. Just plain text with line breaks.\n" ++
  "- Use light Hinglish (simple Hindi + English), friendly tone.\n" ++
  "- Only include information relevant to the guest\x27s question.\n" ++
  "- If the question is not about this wedding, politely say you only know wedding details."

/-- The user prompt of src/server.js lines 301-309, after `.trim()`. -/
def userPromptFor (E : EventData) (userMessage : String) : String :=
  "Here are all the current wedding details (from Google Sheets):\n\n" ++
  buildContextFromEventData E ++
  "\n\nGuest message: \"" ++ userMessage ++ "\"\n\nNow answer as per the rules."

/-! ### Reply bodies (src/server.js lines 239-267, 325-331) -/

/-- The fixed no-booking notice (src/server.js lines 241-245, after `.trim()`). -/
def noBookingReplyText : String :=
  "<strong>Hotel Booking:</strong>\n" ++
  "Aapke liye abhi tak koi hotel booking nahi hui hai.\n" ++
  "Agar aapko stay arrange karwana hai, please directly family se contact karein. 🙂"

/-- The fixed generic apology of the catch handler (src/server.js lines 327-330). -/
def genericApology : String :=
  "Oops, Babli Bua ko data load karne mein issue aa gaya. Please thodi der baad try karo."

/-- The hotel join of src/server.js lines 251-254:
`EVENT_DATA.hotels?.find(h => h.name.toLowerCase() === guestInfo.hotelName?.toLowerCase())`.
A hotel row with no `name` column makes `h.name.toLowerCase()` throw a
`TypeError`, modelled as `Except.error`; `guestInfo.hotelName?.toLowerCase()`
is `undefined` when the guest has no hotel name, and a string never equals
`undefined`. -/
def findHotelFor (guestInfo : GuestBooking) : List Hotel → Except String (Option Hotel)
  | [] => .ok none
  | h :: rest =>
    match h.name with
    | none => .error "TypeError: Cannot read properties of undefined"
    | some hn =>
      match guestInfo.hotelName with
      | some gn =>
        if jsToLower hn = jsToLower gn then .ok (some h) else findHotelFor guestInfo rest
      | none => findHotelFor guestInfo rest

/-- The booking-found reply (src/server.js lines 250-267): joins the guest's
hotel name to the hotel list case-insensitively, then renders the template
literal with its `||` fallbacks, trimmed. -/
def bookingFoundReply (guestInfo : GuestBooking) (hotels : List Hotel) :
    Except String String :=
  (findHotelFor guestInfo hotels).map (fun hotel =>
    jsTrim ("\n<strong>Booking Found for " ++ showJs guestInfo.name ++ ":</strong>\n" ++
     "<strong>Hotel:</strong> " ++
       jsOr (hotel.bind (fun h => h.name)) (jsOr guestInfo.hotelName "N/A") ++ "\n" ++
     "<strong>Room:</strong> " ++ jsOr guestInfo.roomNo "N/A" ++ "\n" ++
     "<strong>Address:</strong> " ++
       jsOr (hotel.bind (fun h => h.address)) "Address not available" ++ "\n" ++
     "<strong>Map:</strong> " ++
       jsOr (hotel.bind (fun h => h.mapLink)) "Map link not available" ++ "\n" ++
     "<strong>Contact:</strong> " ++
       jsOr (hotel.bind (fun h => h.contactPerson)) "N/A" ++ " (" ++
       jsOr (hotel.bind (fun h => h.contactPhone)) "N/A" ++ ")\n" ++
     "<strong>Notes:</strong> " ++
       jsOr guestInfo.notes (jsOr (hotel.bind (fun h => h.notes)) "Enjoy your stay! 😊") ++
     "\n"))

/-! ### The chat endpoint `POST /api/chat` (src/server.js lines 210-332) -/

/-- What the endpoint hands back: a JSON reply, an HTTP error status with a
fixed reply body, or delegation to the language-model API with the two
prompts it would be called with. -/
inductive ChatOutcome where
  | reply (body : String)
  | serverError (status : Nat) (body : String)
  | llmDelegated (systemPrompt : String) (userPrompt : String)
deriving DecidableEq, Repr

/-- The endpoint body after the message has been truncated
(src/server.js lines 214-332): load the snapshot through the cache, resolve
the booking, and either answer directly or delegate to the language model;
any thrown error (configuration, fetch, or the hotel-join `TypeError`) is
caught and turned into HTTP 500 with the fixed generic apology. -/
def handleChatCore (env : Env) (load : String → Except String (List Row))
    (st : CacheState) (now : Int) (userMessage : String) : ChatOutcome × CacheState :=
  match getEventData env load st now with
  | .error _ => (.serverError 500 genericApology, st)
  | .ok (eventData, st') =>
    match resolveBooking userMessage eventData.guests with
    | .notFound => (.reply noBookingReplyText, st')
    | .found guestInfo =>
      match bookingFoundReply guestInfo eventData.hotels with
      | .ok r => (.reply r, st')
      | .error _ => (.serverError 500 genericApology, st')
    | .noPhoneMentioned =>
      (.llmDelegated (systemPromptFor eventData) (userPromptFor eventData userMessage), st')

/-- The full `POST /api/chat` handler (src/server.js line 212 onward):
`const userMessage = (req.body.message || "").toString().slice(0, 500)`
truncates the body message to 500 characters before any processing. -/
def handleChat (env : Env) (load : String → Except String (List Row))
    (st : CacheState) (now : Int) (bodyMessage : Option String) :
    ChatOutcome × CacheState :=
  handleChatCore env load st now (String.mk (((bodyMessage.getD "").data).take 500))

/-- A minimal concrete snapshot (the result of building from empty sheets),
used as a concrete input by several witnesses. -/
def emptySnapshot : EventData := EventData.mk "" "" "" [] [] [] none none

/-! ### Helper lemmas -/

theorem find?_eq_of_unique {α : Type} (p : α → Bool) (l : List α) (a : α)
    (ha : a ∈ l) (hpa : p a = true)
    (huniq : ∀ b ∈ l, p b = true → b = a) :
    l.find? p = some a := by
  induction l with
  | nil => cases ha
  | cons x xs ih =>
    by_cases hx : p x = true
    · have hxa : x = a := huniq x (List.mem_cons_self x xs) hx
      subst hxa
      exact List.find?_cons_of_pos xs hx
    · rw [List.find?_cons_of_neg xs (by simpa using hx)]
      rcases List.mem_cons.mp ha with h | h
      · exact absurd (h ▸ hpa) hx
      · exact ih h (fun b hb hpb => huniq b (List.mem_cons_of_mem x hb) hpb)

theorem takeWhile_lt_of_no_candidate (cs : List Char)
    (h : hasPhoneCandidate cs = false) :
    (cs.takeWhile Char.isDigit).length < 10 := by
  cases cs with
  | nil => simp
  | cons c rest =>
    unfold hasPhoneCandidate at h
    rw [Bool.or_eq_false_iff] at h
    have h1 := h.1
    rw [decide_eq_false_iff_not] at h1
    omega

theorem hasPhoneCandidate_tail (c : Char) (rest : List Char)
    (h : hasPhoneCandidate (c :: rest) = false) :
    hasPhoneCandidate rest = false := by
  unfold hasPhoneCandidate at h
  rw [Bool.or_eq_false_iff] at h
  exact h.2

theorem findPhone_eq_none (cs : List Char) (h : hasPhoneCandidate cs = false) :
    findPhone cs = none := by
  induction cs with
  | nil => rfl
  | cons c rest ih =>
    have h1 : ((c :: rest).takeWhile Char.isDigit).length < 10 :=
      takeWhile_lt_of_no_candidate _ h
    have h2 : hasPhoneCandidate rest = false := hasPhoneCandidate_tail c rest h
    have h3 : (rest.takeWhile Char.isDigit).length < 10 :=
      takeWhile_lt_of_no_candidate _ h2
    have hm : matchPhoneAt c rest = none := by
      unfold matchPhoneAt
      by_cases hc : c = '+'
      · rw [if_pos hc]
        exact if_neg (by omega)
      · rw [if_neg hc]
        exact if_neg (by omega)
    unfold findPhone
    rw [hm]
    exact ih h2

/-! ### The claims -/

/-- C1: for every message whose extracted phone substring normalizes to the
digit string `p`, and every guest list in which exactly one guest's
normalized phone (non-empty, all non-digit characters stripped) has `p` as a
suffix, the booking resolution returns that guest. -/
theorem claim_C1_unique_suffix_match (message : String) (guests : List GuestBooking)
    (raw p : String) (g : GuestBooking)
    (hfind : findPhone message.data = some raw)
    (hp : normalizePhone (some raw) = p)
    (hg : g ∈ guests)
    (hmatch : guestPhoneMatches p g = true)
    (huniq : ∀ g' ∈ guests, guestPhoneMatches p g' = true → g' = g) :
    resolveBooking message guests = .found g := by
  subst hp
  have hne : 0 < guests.length := List.length_pos.mpr (List.ne_nil_of_mem hg)
  have hfq : guests.find? (guestPhoneMatches (normalizePhone (some raw))) = some g :=
    find?_eq_of_unique _ _ _ hg hmatch huniq
  simp [resolveBooking, hfind, hne, hfq]

/-- Witness for C1 at a concrete roster: the first guest has no phone, only
the second guest's normalized phone ends with the extracted query, and
resolution returns the second guest. -/
theorem claim_C1_witness :
    resolveBooking "mera number 9876543210 hai"
      [GuestBooking.mk none (some "NoPhone") none none none,
       GuestBooking.mk (some "+91-9876543210") (some "Asha") none none none] =
      .found (GuestBooking.mk (some "+91-9876543210") (some "Asha") none none none) :=
  claim_C1_unique_suffix_match _ _ "9876543210" "9876543210" _
    (by decide) (by decide) (by decide) (by decide) (by decide)

/-- C2 (counterexample): the claim asserts that for the message
"my number is +91 98765 43210" and a roster holding a guest with phone
"9876543210", resolution is `NotFound` (the no-booking notice).  In fact the
regex `/\+?\d{10,13}/` requires 10-13 consecutive digits, the spaces in
"+91 98765 43210" break every digit run (the longest is 5), so no phone is
extracted at all and resolution is `NoPhoneMentioned`, not `NotFound`. -/
theorem claim_C2_counterexample :
    resolveBooking "my number is +91 98765 43210"
      [GuestBooking.mk (some "9876543210") (some "Guest") none none none] =
      .noPhoneMentioned ∧
    resolveBooking "my number is +91 98765 43210"
      [GuestBooking.mk (some "9876543210") (some "Guest") none none none] ≠
      .notFound := by decide

/-- C2 (amended): for the message "my number is +91 98765 43210" and a guest
roster containing a guest with phone "9876543210", resolution is
`NoPhoneMentioned` (delegation to the language-model path), because the
phone pattern requires an unbroken run of 10-13 digits and the spaces
prevent any match; the stored-versus-query suffix asymmetry is never
exercised and no no-booking notice is produced. -/
theorem claim_C2_amended :
    resolveBooking "my number is +91 98765 43210"
      [GuestBooking.mk (some "9876543210") (some "Guest") none none none] =
      .noPhoneMentioned ∧
    findPhone "my number is +91 98765 43210".data = none := by decide

/-- C3: a message with no substring of 10 consecutive digits (hence no 10-13
digit phone-like substring, with or without a leading `+`) resolves to
`NoPhoneMentioned` regardless of the guest list, and the request is
delegated to the language-model path; moreover the resolution depends only
on the first phone-like match of the message. -/
theorem claim_C3_no_phone (message : String)
    (h : hasPhoneCandidate message.data = false) :
    (∀ guests, resolveBooking message guests = .noPhoneMentioned) ∧
    (∀ m₁ m₂ : String, ∀ guests, findPhone m₁.data = findPhone m₂.data →
      resolveBooking m₁ guests = resolveBooking m₂ guests) ∧
    (∀ env load st now d, st.cachedEventData = some d →
      now - st.lastLoadedMs < CACHE_TTL_MS →
      handleChatCore env load st now message =
        (.llmDelegated (systemPromptFor d) (userPromptFor d message), st)) := by
  have hfp : findPhone message.data = none := findPhone_eq_none _ h
  refine ⟨fun guests => ?_, fun m₁ m₂ guests he => ?_, fun env load st now d hc hf => ?_⟩
  · simp [resolveBooking, hfp]
  · unfold resolveBooking
    rw [he]
  · have hget : getEventData env load st now = .ok (d, st) := by
      unfold getEventData
      rw [hc]
      exact if_pos hf
    unfold handleChatCore
    rw [hget]
    simp [resolveBooking, hfp]

/-- Witness for C3: a concrete message without any 10-digit run resolves to
`NoPhoneMentioned` even with a matching-looking guest present, and with a
warm cache the endpoint delegates to the language model. -/
theorem claim_C3_witness :
    resolveBooking "sangeet kab hai ji"
      [GuestBooking.mk (some "9876543210") none none none none] = .noPhoneMentioned ∧
    handleChatCore (Env.mk none none none none) (fun _ => Except.error "offline")
      (CacheState.mk (some emptySnapshot) 0) 1 "sangeet kab hai ji" =
      (.llmDelegated (systemPromptFor emptySnapshot)
        (userPromptFor emptySnapshot "sangeet kab hai ji"),
       CacheState.mk (some emptySnapshot) 0) := by
  have h := claim_C3_no_phone "sangeet kab hai ji" (by decide)
  exact ⟨h.1 _, h.2.2 _ _ _ _ _ rfl (by decide)⟩

/-- C4: for the message "call 9876543210 please" and a guest with stored
phone "+91-9876543210", resolution finds that guest — the normalized stored
phone "919876543210" ends with the normalized query "9876543210" — and the
booking reply carries the guest's name and the hotel fields, with the
placeholder fallback strings for all the missing hotel data. -/
theorem claim_C4_scenario :
    resolveBooking "call 9876543210 please"
      [GuestBooking.mk (some "+91-9876543210") (some "Asha") none none none] =
      .found (GuestBooking.mk (some "+91-9876543210") (some "Asha") none none none) ∧
    normalizePhone (some "+91-9876543210") = "919876543210" ∧
    findPhone "call 9876543210 please".data = some "9876543210" ∧
    jsEndsWith "919876543210" "9876543210" = true ∧
    bookingFoundReply (GuestBooking.mk (some "+91-9876543210") (some "Asha") none none none)
      [] =
      .ok ("<strong>Booking Found for Asha:</strong>\n<strong>Hotel:</strong> N/A\n<strong>Room:</strong> N/A\n<strong>Address:</strong> Address not available\n<strong>Map:</strong> Map link not available\n<strong>Contact:</strong> N/A (N/A)\n<strong>Notes:</strong> Enjoy your stay! 😊") :=
  ⟨by decide, by decide, by decide, by decide, by rfl⟩

/-- C5: phone normalization is idempotent — a digits-only string is returned
unchanged, and normalizing twice equals normalizing once. -/
theorem claim_C5_normalize_idempotent :
    (∀ s : String, (∀ c ∈ s.data, c.isDigit = true) → normalizePhone (some s) = s) ∧
    (∀ s : String, normalizePhone (some (normalizePhone (some s))) = normalizePhone (some s)) := by
  have key : ∀ s : String, (∀ c ∈ s.data, c.isDigit = true) → normalizePhone (some s) = s := by
    intro s hdig
    by_cases hs : s = ""
    · subst hs; rfl
    · simp only [normalizePhone, jsTruthyStr, if_neg hs]
      show String.mk (s.data.filter Char.isDigit) = s
      rw [List.filter_eq_self.mpr hdig]
  refine ⟨key, fun s => ?_⟩
  by_cases hs : s = ""
  · subst hs; rfl
  · have hdata : (normalizePhone (some s)).data = s.data.filter Char.isDigit := by
      simp only [normalizePhone, jsTruthyStr, if_neg hs]
    refine key _ ?_
    rw [hdata]
    intro c hc
    exact (List.mem_filter.mp hc).2

/-- Witness for C5: the digits-only string "09876543210" is returned
unchanged by normalization. -/
theorem claim_C5_witness :
    normalizePhone (some "09876543210") = "09876543210" :=
  claim_C5_normalize_idempotent.1 "09876543210" (by decide)

/-- C6: the booking resolver is a total function into outcome values
(`NoPhoneMentioned` / `NotFound` / a found guest) rather than an exception;
normalization of a missing (`null`/`undefined`) or empty stored phone yields
the empty string; and a guest whose normalized phone is empty is never the
found guest. -/
theorem claim_C6_resolver_total :
    normalizePhone none = "" ∧
    normalizePhone (some "") = "" ∧
    (∀ message guests, resolveBooking message guests = .noPhoneMentioned ∨
      resolveBooking message guests = .notFound ∨
      ∃ g, resolveBooking message guests = .found g) ∧
    (∀ message guests g, resolveBooking message guests = .found g →
      normalizePhone g.phone ≠ "") := by
  refine ⟨rfl, rfl, fun message guests => ?_, fun message guests g hres => ?_⟩
  · rcases hfp : findPhone message.data with _ | raw
    · exact Or.inl (by simp [resolveBooking, hfp])
    · rcases hf : (if 0 < guests.length then
          guests.find? (guestPhoneMatches (normalizePhone (some raw))) else none) with _ | g
      · exact Or.inr (Or.inl (by simp [resolveBooking, hfp, hf]))
      · exact Or.inr (Or.inr ⟨g, by simp [resolveBooking, hfp, hf]⟩)
  · rcases hfp : findPhone message.data with _ | raw
    · simp [resolveBooking, hfp] at hres
    · rcases hf : (if 0 < guests.length then
          guests.find? (guestPhoneMatches (normalizePhone (some raw))) else none) with _ | g'
      · simp [resolveBooking, hfp, hf] at hres
      · simp [resolveBooking, hfp, hf] at hres
        subst hres
        have hfindq : guests.find? (guestPhoneMatches (normalizePhone (some raw))) = some g' := by
          by_cases hl : 0 < guests.length
          · rwa [if_pos hl] at hf
          · rw [if_neg hl] at hf; cases hf
        have hp := List.find?_some hfindq
        simp only [guestPhoneMatches, Bool.and_eq_true, decide_eq_true_eq] at hp
        exact hp.1

/-- Witness for C6: a resolution that finds a concrete guest implies that
guest's normalized phone is non-empty. -/
theorem claim_C6_witness :
    normalizePhone (some "9876543210") ≠ "" :=
  claim_C6_resolver_total.2.2.2 "call 9876543210"
    [GuestBooking.mk (some "9876543210") none none none none]
    (GuestBooking.mk (some "9876543210") none none none none) (by decide)

/-- C7: while a cached snapshot is younger than the 5-minute TTL,
`getEventData` returns that same snapshot and leaves the cache untouched, for
every environment and every remote-fetch behaviour (so the data seen within
the TTL window is identical even if the remote tables change); once the TTL
has expired, the cache is replaced wholesale by the newly built snapshot. -/
theorem claim_C7_cache_ttl (st : CacheState) (d : EventData)
    (hcache : st.cachedEventData = some d) :
    (∀ env load now, now - st.lastLoadedMs < CACHE_TTL_MS →
      getEventData env load st now = .ok (d, st)) ∧
    (∀ env load now data, ¬ (now - st.lastLoadedMs < CACHE_TTL_MS) →
      buildEventDataFromSheets env load = .ok data →
      getEventData env load st now = .ok (data, CacheState.mk (some data) now)) := by
  refine ⟨fun env load now hf => ?_, fun env load now data hf hb => ?_⟩
  · unfold getEventData
    rw [hcache]
    exact if_pos hf
  · unfold getEventData
    rw [hcache]
    show (if now - st.lastLoadedMs < CACHE_TTL_MS then Except.ok (d, st)
        else match buildEventDataFromSheets env load with
          | Except.ok y => Except.ok (y, CacheState.mk (some y) now)
          | Except.error e => Except.error e) =
      Except.ok (data, CacheState.mk (some data) now)
    rw [if_neg hf, hb]

/-- Witness for C7: with a snapshot cached at time 0, a call at time 1 with a
failing remote returns the cached snapshot unchanged, and a call at time
300000 (the TTL) with empty remote sheets replaces the cache with the newly
built snapshot. -/
theorem claim_C7_witness :
    getEventData (Env.mk none none none none) (fun _ => Except.error "remote changed")
      (CacheState.mk (some emptySnapshot) 0) 1 =
      .ok (emptySnapshot, CacheState.mk (some emptySnapshot) 0) ∧
    getEventData (Env.mk (some "meta.csv") (some "events.csv") none none) (fun _ => Except.ok [])
      (CacheState.mk (some emptySnapshot) 0) 300000 =
      .ok (emptySnapshot, CacheState.mk (some emptySnapshot) 300000) := by
  have h := claim_C7_cache_ttl (CacheState.mk (some emptySnapshot) 0) emptySnapshot rfl
  exact ⟨h.1 _ _ _ (by decide), h.2 _ _ _ _ (by decide) (by rfl)⟩

/-- C8: when a required source URL is unset (or empty, which is falsy in JS),
rebuilding the snapshot fails with the fixed configuration error no matter
what the remote fetches would return, and on a cache miss the chat endpoint
surfaces this as HTTP 500 with the fixed generic apology — never any
internal error detail — leaving the cache untouched. -/
theorem claim_C8_config_error (env : Env)
    (henv : jsTruthyStr env.META_CSV_URL = none ∨ jsTruthyStr env.EVENTS_CSV_URL = none) :
    (∀ load, buildEventDataFromSheets env load =
      .error "META_CSV_URL or EVENTS_CSV_URL missing in .env") ∧
    (∀ load st now userMessage, st.cachedEventData = none →
      handleChatCore env load st now userMessage = (.serverError 500 genericApology, st)) := by
  have hb : ∀ load, buildEventDataFromSheets env load =
      .error "META_CSV_URL or EVENTS_CSV_URL missing in .env" := by
    intro load
    unfold buildEventDataFromSheets
    rcases henv with h | h
    · rw [h]
    · rw [h]
      cases jsTruthyStr env.META_CSV_URL <;> rfl
  refine ⟨hb, fun load st now userMessage hnone => ?_⟩
  have hget : getEventData env load st now =
      .error "META_CSV_URL or EVENTS_CSV_URL missing in .env" := by
    unfold getEventData
    rw [hnone, hb load]
  unfold handleChatCore
  rw [hget]

/-- Witness for C8: with `META_CSV_URL` unset and a cold cache, the build
fails with the configuration error and the endpoint answers 500 with the
generic apology. -/
theorem claim_C8_witness :
    buildEventDataFromSheets (Env.mk none (some "events.csv") none none) (fun _ => Except.ok []) =
      .error "META_CSV_URL or EVENTS_CSV_URL missing in .env" ∧
    handleChatCore (Env.mk none (some "events.csv") none none) (fun _ => Except.ok [])
      (CacheState.mk none 0) 0 "namaste" =
      (.serverError 500 genericApology, CacheState.mk none 0) := by
  have h := claim_C8_config_error (Env.mk none (some "events.csv") none none) (Or.inl rfl)
  exact ⟨h.1 _, h.2 _ _ _ _ rfl⟩

/-- C9: the `POST /api/chat` handler truncates the body message to its first
500 characters before any processing, so its behaviour on any message equals
its behaviour on that message truncated to 500 characters. -/
theorem claim_C9_truncation (env : Env) (load : String → Except String (List Row))
    (st : CacheState) (now : Int) (m : String) :
    handleChat env load st now (some m) =
      handleChat env load st now (some (String.mk (m.data.take 500))) := by
  unfold handleChat
  simp [List.take_take]

/-- The hotel join returns no hotel (and throws nothing) when every hotel of
the list has a name and none of those names matches the guest's hotel name
case-insensitively. -/
theorem findHotelFor_eq_none (g : GuestBooking) :
    ∀ hotels : List Hotel,
      (∀ h ∈ hotels, h.name ≠ none ∧ h.name.map jsToLower ≠ g.hotelName.map jsToLower) →
      findHotelFor g hotels = .ok none
  | [], _ => rfl
  | h :: rest, hyp => by
    obtain ⟨hname, hdiff⟩ := hyp h (List.mem_cons_self h rest)
    have hrec := findHotelFor_eq_none g rest (fun h' hh' => hyp h' (List.mem_cons_of_mem h hh'))
    rcases hx : h.name with _ | hn
    · exact absurd hx hname
    · rw [hx] at hdiff
      unfold findHotelFor
      rw [hx]
      rcases hg : g.hotelName with _ | gn
      · exact hrec
      · rw [hg] at hdiff
        simp only [Option.map_some'] at hdiff
        have hne : jsToLower hn ≠ jsToLower gn := fun hEq => hdiff (by rw [hEq])
        show (if jsToLower hn = jsToLower gn then Except.ok (some h)
            else findHotelFor g rest) = Except.ok none
        rw [if_neg hne]
        exact hrec

/-- C10: when a matching guest's stored hotel name is missing or matches no
hotel of the snapshot's (all-named) hotel list case-insensitively, the
booking reply is still produced without error: the hotel field falls back
through the raw stored name to "N/A", and the address, map and contact
fields fall back to their placeholder strings. -/
theorem claim_C10_hotel_fallback (g : GuestBooking) (hotels : List Hotel)
    (hno : ∀ h ∈ hotels, h.name ≠ none ∧ h.name.map jsToLower ≠ g.hotelName.map jsToLower) :
    bookingFoundReply g hotels =
      .ok (jsTrim ("\n<strong>Booking Found for " ++ showJs g.name ++ ":</strong>\n" ++
        "<strong>Hotel:</strong> " ++ jsOr g.hotelName "N/A" ++ "\n" ++
        "<strong>Room:</strong> " ++ jsOr g.roomNo "N/A" ++ "\n" ++
        "<strong>Address:</strong> " ++ "Address not available" ++ "\n" ++
        "<strong>Map:</strong> " ++ "Map link not available" ++ "\n" ++
        "<strong>Contact:</strong> " ++ "N/A" ++ " (" ++ "N/A" ++ ")\n" ++
        "<strong>Notes:</strong> " ++ jsOr g.notes "Enjoy your stay! 😊" ++ "\n")) := by
  have hfind : findHotelFor g hotels = .ok none := findHotelFor_eq_none g hotels hno
  unfold bookingFoundReply
  rw [hfind]
  rfl

/-- Witness for C10: a guest booked at "Taj Palace" while the hotel list only
knows "Oberoi" still gets a complete reply, with the raw stored hotel name
and all placeholder fallbacks. -/
theorem claim_C10_witness :
    bookingFoundReply
      (GuestBooking.mk (some "9876543210") (some "Meera") (some "Taj Palace") (some "101") none)
      [Hotel.mk (some "Oberoi") none none none none none none none none] =
      .ok ("<strong>Booking Found for Meera:</strong>\n<strong>Hotel:</strong> Taj Palace\n<strong>Room:</strong> 101\n<strong>Address:</strong> Address not available\n<strong>Map:</strong> Map link not available\n<strong>Contact:</strong> N/A (N/A)\n<strong>Notes:</strong> Enjoy your stay! 😊") := by
  rw [claim_C10_hotel_fallback
    (GuestBooking.mk (some "9876543210") (some "Meera") (some "Taj Palace") (some "101") none)
    [Hotel.mk (some "Oberoi") none none none none none none none none]
    (by decide)]
  rfl

end BabliBua
